import Mathlib

/-!
Verification of `scripts/gis_processor.py` (class `GISProcessor`).

Shallow embedding conventions:
* Python floats are modelled as rationals (`ℚ`): the source performs only
  `+`, `*`, `/ 2` on values read from text, and the spec asks for exactness
  "up to floating-point rounding", so the algebra is carried out exactly.
* A read file is modelled by its list of lines (`List String`); `open` of a
  path that was obtained from a directory listing always succeeds, matching
  the batch loop which only opens files it has just listed.
* Python exceptions become an `Except PyError` result: `lines[i]` out of
  range is `indexError`, `float(s)` on an unparseable string is
  `valueError`, `d["k"]` on a missing key is `keyError`, and subscripting /
  iterating a value of the wrong shape is `typeError`.
* `float(s)` is modelled by `parseFloat`, a decimal-literal parser
  (optional surrounding whitespace, optional sign, digits with an optional
  fractional part).  This covers every literal a `.tfw` world file contains;
  exponent notation and `inf`/`nan` are not modelled.
-/

/-- Python exception outcomes that the embedded code can raise. -/
inductive PyError where
  | indexError
  | valueError
  | keyError
  | typeError
  | fileNotFound
deriving DecidableEq, Repr

/-- The spec's `MalformedTransformArtifact` error class: in the source it is
an `IndexError` (fewer than six lines) or a `ValueError` (a line `float()`
cannot parse). -/
def MalformedTransformArtifact (e : PyError) : Prop :=
  e = PyError.indexError ∨ e = PyError.valueError

/-- `isOkE r` is true when the embedded computation finished without raising. -/
def isOkE {α : Type} : Except PyError α → Bool
  | Except.ok _ => true
  | Except.error _ => false

/-- Python's `for`-loop that appends `f a` for each element, propagating the
first raised exception (as in `process_json_and_calculate_coordinates` and
`populate_gis_from_dict`). -/
def mapLoop {α β : Type} (f : α → Except PyError β) : List α → Except PyError (List β)
  | [] => Except.ok []
  | a :: l => do
    let b ← f a
    let r ← mapLoop f l
    pure (b :: r)

/-- Whitespace stripped by Python `float()` before parsing. -/
def isSpaceChar (c : Char) : Bool :=
  c == ' ' || c == '\n' || c == '\t' || c == '\r'

/-- Strip leading and trailing whitespace from a character list. -/
def trimL (s : List Char) : List Char :=
  ((s.dropWhile isSpaceChar).reverse.dropWhile isSpaceChar).reverse

/-- Split a character list at every occurrence of the separator character. -/
def splitOnChar (sep : Char) : List Char → List (List Char)
  | [] => [[]]
  | c :: cs =>
    let r := splitOnChar sep cs
    if c == sep then [] :: r
    else
      match r with
      | [] => [[c]]
      | h :: t => (c :: h) :: t

/-- Numeric value of a digit character. -/
def digitVal (c : Char) : Nat := c.toNat - Char.toNat '0'

/-- Value of a digit string read left to right. -/
def digitsVal (l : List Char) : Nat :=
  l.foldl (fun a c => 10 * a + digitVal c) 0

/-- Model of Python `float(s)` on plain decimal literals: optional
whitespace, optional sign, digits with an optional fractional part
(`"1"`, `"1."`, `".5"`, `"-0.5"` parse; `""`, `"."`, `"abc"` do not).
Returns `none` exactly when `float(s)` raises `ValueError`. -/
def parseFloat (s : String) : Option ℚ :=
  let t := trimL s.toList
  let signed : Bool × List Char :=
    match t with
    | '-' :: rest => (true, rest)
    | '+' :: rest => (false, rest)
    | _ => (false, t)
  let body : Option ℚ :=
    match splitOnChar '.' signed.2 with
    | [ip] =>
        if 0 < ip.length ∧ ip.all Char.isDigit then some (digitsVal ip : ℚ) else none
    | [ip, fp] =>
        if 0 < ip.length + fp.length ∧ ip.all Char.isDigit ∧ fp.all Char.isDigit then
          some ((digitsVal ip : ℚ) + (digitsVal fp : ℚ) / (10 : ℚ) ^ fp.length)
        else none
    | _ => none
  body.map (fun v => if signed.1 then -v else v)

/-- `lines[i]` on the list of lines of the world file: `IndexError` when out
of range. -/
def getLine (lines : List String) (i : Nat) : Except PyError String :=
  match lines[i]? with
  | some s => Except.ok s
  | none => Except.error PyError.indexError

/-- `float(s)`: `ValueError` when the string does not parse. -/
def pyFloat (s : String) : Except PyError ℚ :=
  match parseFloat s with
  | some q => Except.ok q
  | none => Except.error PyError.valueError

/-- `float(lines[i])` as the source performs it for each coefficient. -/
def readCoeff (lines : List String) (i : Nat) : Except PyError ℚ := do
  let s ← getLine lines i
  pyFloat s

/-- The six coefficients read from a `.tfw` world file, in source order. -/
structure Transform where
  pixel_size_x : ℚ
  rotation_x : ℚ
  rotation_y : ℚ
  pixel_size_y : ℚ
  upper_left_x : ℚ
  upper_left_y : ℚ
deriving DecidableEq, Repr

/-- The reading half of `GISProcessor.get_lat_lon_from_pixel` (lines 25-32):
parse the first six lines of the world file as floats, in order. -/
def readTransform (lines : List String) : Except PyError Transform := do
  let pixel_size_x ← readCoeff lines 0
  let rotation_x ← readCoeff lines 1
  let rotation_y ← readCoeff lines 2
  let pixel_size_y ← readCoeff lines 3
  let upper_left_x ← readCoeff lines 4
  let upper_left_y ← readCoeff lines 5
  pure ⟨pixel_size_x, rotation_x, rotation_y, pixel_size_y, upper_left_x, upper_left_y⟩

/-- The arithmetic half of `GISProcessor.get_lat_lon_from_pixel`
(lines 34-37): the affine map applied to one pixel point. -/
def applyTransform (t : Transform) (pixel_x pixel_y : ℚ) : ℚ × ℚ :=
  (t.upper_left_x + pixel_x * t.pixel_size_x + pixel_y * t.rotation_x,
   t.upper_left_y + pixel_x * t.rotation_y + pixel_y * t.pixel_size_y)

/-- `GISProcessor.get_lat_lon_from_pixel(tfw_path, pixel_x, pixel_y)` with
the world file given by its lines. -/
def get_lat_lon_from_pixel (tfwLines : List String) (pixel_x pixel_y : ℚ) :
    Except PyError (ℚ × ℚ) := do
  let t ← readTransform tfwLines
  pure (applyTransform t pixel_x pixel_y)

/-- A pixel center, the `{"x": ..., "y": ...}` dictionaries the source
builds and consumes. -/
structure Center where
  x : ℚ
  y : ℚ
deriving DecidableEq, Repr

/-- `GISProcessor.get_center_bbox(bbox)` (lines 18-21). -/
def get_center_bbox (bbox : ℚ × ℚ × ℚ × ℚ) : Center :=
  let (x, y, w, h) := bbox
  ⟨x + w / 2, y + h / 2⟩

/-- A geographic point, the `{"latitude": ..., "longitude": ...}`
dictionaries appended by `populate_gis_from_dict`. -/
structure GeoPoint where
  latitude : ℚ
  longitude : ℚ
deriving DecidableEq, Repr

/-- The `preds_dict` argument of `GISProcessor.populate_gis_from_dict`, as
documented by its docstring: an optional `"center"` entry (a list of
`{"x", "y"}` points) and an optional `"bboxes"` entry (a list of
`(x, y, w, h)` 4-tuples).  `none` models an absent key. -/
structure PredsDict where
  center : Option (List Center)
  bboxes : Option (List (ℚ × ℚ × ℚ × ℚ))

/-- Lines 117-119 of `populate_gis_from_dict`:
`centers = preds_dict.get("center", [])` followed by the falsy-test
fallback `centers = [get_center_bbox(bbox) for bbox in preds_dict["bboxes"]]`;
`preds_dict["bboxes"]` raises `KeyError` when the key is absent. -/
def resolve_centers (preds_dict : PredsDict) : Except PyError (List Center) :=
  let centers := preds_dict.center.getD []
  if centers.isEmpty then
    match preds_dict.bboxes with
    | some bboxes => Except.ok (bboxes.map get_center_bbox)
    | none => Except.error PyError.keyError
  else Except.ok centers

/-- One iteration of the loop of `populate_gis_from_dict` (lines 122-126):
map one center through `get_lat_lon_from_pixel` and record the pair. -/
def map_center (tfwLines : List String) (center : Center) : Except PyError GeoPoint := do
  let r ← get_lat_lon_from_pixel tfwLines center.x center.y
  pure ⟨r.1, r.2⟩

/-- `GISProcessor.populate_gis_from_dict(preds_dict, tfw_path)`
(lines 90-128), with the world file given by its lines. -/
def populate_gis_from_dict (preds_dict : PredsDict) (tfwLines : List String) :
    Except PyError (List GeoPoint) := do
  let centers ← resolve_centers preds_dict
  mapLoop (map_center tfwLines) centers

/-- The affine image of a center under a parsed transform, as named by the
claims about index alignment. -/
def geoOf (t : Transform) (c : Center) : GeoPoint :=
  ⟨(applyTransform t c.x c.y).1, (applyTransform t c.x c.y).2⟩

/-- A JSON value, for the detection-record artifacts the processor reads
and writes. -/
inductive JValue where
  | num (q : ℚ)
  | str (s : String)
  | boolean (b : Bool)
  | null
  | arr (elems : List JValue)
  | obj (fields : List (String × JValue))

/-- A parsed JSON object (a Python dict with string keys, in insertion
order, keys distinct). -/
abbrev JObj := List (String × JValue)

/-- Python `d.get(k)` / `k in d` lookup on a dict. -/
def getItem (fields : JObj) (k : String) : Option JValue :=
  match fields with
  | [] => none
  | (k2, v) :: rest => if k2 = k then some v else getItem rest k

/-- Python truthiness of a JSON value (`if not centers:`). -/
def jFalsy : JValue → Bool
  | JValue.num q => q == 0
  | JValue.str s => s == ""
  | JValue.boolean b => !b
  | JValue.null => true
  | JValue.arr l => l.isEmpty
  | JValue.obj l => l.isEmpty

/-- Python `v[k]` with a string key: `KeyError` when the dict lacks the
key, `TypeError` when `v` is not a dict. -/
def subscriptDict (v : JValue) (k : String) : Except PyError JValue :=
  match v with
  | JValue.obj fields =>
      match getItem fields k with
      | some w => Except.ok w
      | none => Except.error PyError.keyError
  | _ => Except.error PyError.typeError

/-- Coerce a JSON value to a number.  A non-numeric `center["x"]` would make
the arithmetic of `get_lat_lon_from_pixel` raise `TypeError`; the model
raises it at the extraction point. -/
def asNum : JValue → Except PyError ℚ
  | JValue.num q => Except.ok q
  | _ => Except.error PyError.typeError

/-- One result of `process_json_and_calculate_coordinates`, the
`{"x", "y", "latitude", "longitude"}` dictionary of line 53. -/
structure CoordResult where
  x : ℚ
  y : ℚ
  latitude : ℚ
  longitude : ℚ
deriving DecidableEq, Repr

/-- One iteration of the loop of lines 49-53: read `center["x"]`,
`center["y"]`, map them through the transform. -/
def coord_of_center (tfwLines : List String) (center : JValue) :
    Except PyError CoordResult := do
  let pixel_x ← asNum (← subscriptDict center "x")
  let pixel_y ← asNum (← subscriptDict center "y")
  let r ← get_lat_lon_from_pixel tfwLines pixel_x pixel_y
  pure ⟨pixel_x, pixel_y, r.1, r.2⟩

/-- `GISProcessor.process_json_and_calculate_coordinates(json_path, tfw_path)`
(lines 39-55), with the record artifact given as its parsed JSON object and
the world file by its lines.  A truthy non-list `"center"` value fails with
`TypeError` (in Python the failure surfaces on first use of an element). -/
def process_json_and_calculate_coordinates (data : JObj) (tfwLines : List String) :
    Except PyError (List CoordResult) :=
  let centers := (getItem data "center").getD (JValue.arr [])
  if jFalsy centers then Except.ok []
  else
    match centers with
    | JValue.arr l => mapLoop (coord_of_center tfwLines) l
    | _ => Except.error PyError.typeError

/-- Python `d[k] = v` on a dict: replace in place when the key exists,
append at the end otherwise. -/
def dictSet (d : JObj) (k : String) (v : JValue) : JObj :=
  match d with
  | [] => [(k, v)]
  | (k2, w) :: rest => if k2 = k then (k2, v) :: rest else (k2, w) :: dictSet rest k v

/-- The `gis` value written by `save_results_with_gis_to_json` (line 63). -/
def gisValue (results : List CoordResult) : JValue :=
  JValue.arr (results.map (fun r =>
    JValue.obj [("latitude", JValue.num r.latitude), ("longitude", JValue.num r.longitude)]))

/-- `GISProcessor.save_results_with_gis_to_json(results, json_file_path,
output_file_path)` (lines 57-66): the object written to the output file,
with the re-read input artifact given as its parsed JSON object
(`copy.deepcopy` is the identity on the pure value). -/
def save_results_with_gis_to_json (data : JObj) (results : List CoordResult) : JObj :=
  dictSet data "gis" (gisValue results)

/-- Does `pat` occur at the head of `s`? -/
def startsWithL (pat s : List Char) : Bool :=
  match pat, s with
  | [], _ => true
  | _ :: _, [] => false
  | p :: ps, c :: cs => p == c && startsWithL ps cs

/-- Python `pat in s` on strings: does `pat` occur as a contiguous run? -/
def containsL (pat : List Char) : List Char → Bool
  | [] => startsWithL pat []
  | c :: cs => startsWithL pat (c :: cs) || containsL pat cs

/-- Replace every occurrence of the nonempty pattern, scanning left to
right (fuelled recursion; the fuel is the input length, which suffices
because every step consumes at least one character). -/
def replaceFuel (pat rep : List Char) : Nat → List Char → List Char
  | _, [] => []
  | 0, s => s
  | fuel + 1, c :: cs =>
    if pat ≠ [] ∧ startsWithL pat (c :: cs) = true then
      rep ++ replaceFuel pat rep fuel (cs.drop (pat.length - 1))
    else
      c :: replaceFuel pat rep fuel cs

/-- Python `s.replace(pat, rep)` for a nonempty pattern, as the batch loop
uses it to derive `fn.replace(".json", ".tfw")`. -/
def strReplace (s pat rep : String) : String :=
  String.mk (replaceFuel pat.toList rep.toList s.toList.length s.toList)

/-- `".json" in fn`, the substring test of line 72. -/
def jsonMatch (fn : String) : Bool :=
  containsL ".json".toList fn.toList

/-- A directory, modelled as its listing: file names paired with contents.
`os.listdir` enumerates the names; opening a listed name yields its
content. -/
def lookupFile {α : Type} (dir : List (String × α)) (name : String) : Option α :=
  match dir with
  | [] => none
  | (n, content) :: rest => if n = name then some content else lookupFile rest name

/-- The messages `populate_gis` prints while it runs. -/
inductive LogEntry where
  | missingTfw (fn : String)
  | printedResults (fn : String)
  | savedJson (fn : String)
deriving DecidableEq, Repr

/-- The inputs of one `populate_gis` batch run: the record directory (each
`.json` file with its parsed object), the world-file directory (each file
with its lines), and the `print_results` flag. -/
structure BatchEnv where
  jsonDir : List (String × JObj)
  inputDir : List (String × List String)
  print_results : Bool

/-- The loop body of `GISProcessor.populate_gis` (lines 70-88) over the
remaining directory entries: skip names without `".json"`, skip (with a
log) names whose `.tfw` twin is not listed, otherwise process the record
and either print or save.  An uncaught exception aborts the whole batch. -/
def populate_gis_go (inputDir : List (String × List String)) (printResults : Bool) :
    List (String × JObj) → Except PyError (List (String × JObj) × List LogEntry)
  | [] => Except.ok ([], [])
  | (fn, data) :: rest =>
    if jsonMatch fn then
      match lookupFile inputDir (strReplace fn ".json" ".tfw") with
      | none => do
          let (outs, logs) ← populate_gis_go inputDir printResults rest
          pure (outs, LogEntry.missingTfw fn :: logs)
      | some tfwLines => do
          let results ← process_json_and_calculate_coordinates data tfwLines
          let (outs, logs) ← populate_gis_go inputDir printResults rest
          if printResults then
            pure (outs, LogEntry.printedResults fn :: logs)
          else
            pure ((fn, save_results_with_gis_to_json data results) :: outs,
                  LogEntry.savedJson fn :: logs)
    else
      populate_gis_go inputDir printResults rest

/-- `GISProcessor.populate_gis(self)`: run the batch over the whole record
directory, returning the output artifacts (file name, written object) and
the log. -/
def populate_gis (env : BatchEnv) : Except PyError (List (String × JObj) × List LogEntry) :=
  populate_gis_go env.inputDir env.print_results env.jsonDir

/-- A world file whose first line does not parse as a float. -/
def badTfwLines : List String := ["x"]

/-- The identity world file. -/
def goodTfwLines : List String := ["1", "0", "0", "1", "0", "0"]

/-- A record artifact with one explicit pixel center. -/
def recordWithCenter : JObj :=
  [("center", JValue.arr [JValue.obj [("x", JValue.num 1), ("y", JValue.num 2)]])]

/-- A batch in which `b.json` is paired with a malformed world file and
`c.json` with a well-formed one. -/
def envEx : BatchEnv :=
  ⟨[("b.json", recordWithCenter), ("c.json", recordWithCenter)],
   [("b.tfw", badTfwLines), ("c.tfw", goodTfwLines)], false⟩

/-- A batch in which `a.json` has no matching world file and `b.json` has
one. -/
def envW : BatchEnv :=
  ⟨[("a.json", [("center", JValue.arr [])]), ("b.json", [("center", JValue.arr [])])],
   [("b.tfw", goodTfwLines)], false⟩

/-- C1: the Coordinate Mapper returns
`(origin_x + pixel_x * pixel_size_x + pixel_y * rotation_x,
  origin_y + pixel_x * rotation_y + pixel_y * pixel_size_y)` for every
transform and pixel point, and on the world file
`[0.5, 0.0, 0.0, -0.5, 100.0, 200.0]` the pixel point `(10, 10)` maps to
`(105.0, 195.0)`. -/
theorem spec_c1 :
    (∀ (t : Transform) (px py : ℚ),
      applyTransform t px py =
        (t.upper_left_x + px * t.pixel_size_x + py * t.rotation_x,
         t.upper_left_y + px * t.rotation_y + py * t.pixel_size_y)) ∧
    get_lat_lon_from_pixel ["0.5", "0.0", "0.0", "-0.5", "100.0", "200.0"] 10 10 =
      Except.ok (105, 195) := by
  constructor
  · intro t px py
    rfl
  · with_unfolding_all rfl

/-- C2: `get_center_bbox (x, y, w, h)` is the midpoint
`(x + w/2, y + h/2)`, and the bounding box `(10, 20, 4, 6)` has center
`(12, 23)`. -/
theorem spec_c2 :
    (∀ x y w h : ℚ, get_center_bbox (x, y, w, h) = ⟨x + w / 2, y + h / 2⟩) ∧
    get_center_bbox (10, 20, 4, 6) = ⟨12, 23⟩ := by
  constructor
  · intro x y w h
    rfl
  · with_unfolding_all rfl

/-- C7: the identity transform `(1, 0, 0, 1, 0, 0)` maps every pixel point
to itself. -/
theorem spec_c7 : ∀ x y : ℚ, applyTransform ⟨1, 0, 0, 1, 0, 0⟩ x y = (x, y) := by
  intro x y
  simp only [applyTransform, Prod.mk.injEq]
  constructor <;> ring

/-- Reduction of bind on a successful step. -/
@[simp] theorem bindE_ok {α β : Type} (a : α) (f : α → Except PyError β) :
    (Except.ok a >>= f) = f a := rfl

/-- Reduction of bind on a raised exception. -/
@[simp] theorem bindE_error {α β : Type} (e : PyError) (f : α → Except PyError β) :
    ((Except.error e : Except PyError α) >>= f) = Except.error e := rfl

/-- Reduction of pure. -/
@[simp] theorem pureE {α : Type} (a : α) : (pure a : Except PyError α) = Except.ok a := rfl

/-- A coefficient read succeeds exactly when the line exists and parses. -/
theorem readCoeff_ok_iff (lines : List String) (i : Nat) (q : ℚ) :
    readCoeff lines i = Except.ok q ↔
      ∃ s, lines[i]? = some s ∧ parseFloat s = some q := by
  constructor
  · intro h
    cases hg : lines[i]? with
    | none => simp [readCoeff, getLine, pyFloat, hg] at h
    | some s =>
        cases hp : parseFloat s with
        | none => simp [readCoeff, getLine, pyFloat, hg, hp] at h
        | some q2 =>
            simp [readCoeff, getLine, pyFloat, hg, hp] at h
            exact ⟨s, rfl, by rw [hp, h]⟩
  · rintro ⟨s, hg, hp⟩
    simp [readCoeff, getLine, pyFloat, hg, hp]

/-- A failed coefficient read is an `IndexError` or a `ValueError`. -/
theorem readCoeff_error (lines : List String) (i : Nat) (e : PyError)
    (h : readCoeff lines i = Except.error e) : MalformedTransformArtifact e := by
  cases hg : lines[i]? with
  | none =>
      simp [readCoeff, getLine, pyFloat, hg] at h
      exact Or.inl h.symm
  | some s =>
      cases hp : parseFloat s with
      | none =>
          simp [readCoeff, getLine, pyFloat, hg, hp] at h
          exact Or.inr h.symm
      | some q => simp [readCoeff, getLine, pyFloat, hg, hp] at h

/-- When the transform parser succeeds, the artifact has at least six lines
and each of the first six parses as a float. -/
theorem readTransform_ok (lines : List String) (t : Transform)
    (h : readTransform lines = Except.ok t) :
    6 ≤ lines.length ∧
      ∀ i, i < 6 → ∃ s q, lines[i]? = some s ∧ parseFloat s = some q := by
  cases h0 : readCoeff lines 0 with
  | error e0 => simp [readTransform, h0] at h
  | ok q0 =>
  cases h1 : readCoeff lines 1 with
  | error e1 => simp [readTransform, h0, h1] at h
  | ok q1 =>
  cases h2 : readCoeff lines 2 with
  | error e2 => simp [readTransform, h0, h1, h2] at h
  | ok q2 =>
  cases h3 : readCoeff lines 3 with
  | error e3 => simp [readTransform, h0, h1, h2, h3] at h
  | ok q3 =>
  cases h4 : readCoeff lines 4 with
  | error e4 => simp [readTransform, h0, h1, h2, h3, h4] at h
  | ok q4 =>
  cases h5 : readCoeff lines 5 with
  | error e5 => simp [readTransform, h0, h1, h2, h3, h4, h5] at h
  | ok q5 =>
  obtain ⟨s0, hg0, hp0⟩ := (readCoeff_ok_iff lines 0 q0).mp h0
  obtain ⟨s1, hg1, hp1⟩ := (readCoeff_ok_iff lines 1 q1).mp h1
  obtain ⟨s2, hg2, hp2⟩ := (readCoeff_ok_iff lines 2 q2).mp h2
  obtain ⟨s3, hg3, hp3⟩ := (readCoeff_ok_iff lines 3 q3).mp h3
  obtain ⟨s4, hg4, hp4⟩ := (readCoeff_ok_iff lines 4 q4).mp h4
  obtain ⟨s5, hg5, hp5⟩ := (readCoeff_ok_iff lines 5 q5).mp h5
  constructor
  · obtain ⟨hlt, -⟩ := List.getElem?_eq_some.mp hg5
    omega
  · intro i hi
    interval_cases i
    · exact ⟨s0, q0, hg0, hp0⟩
    · exact ⟨s1, q1, hg1, hp1⟩
    · exact ⟨s2, q2, hg2, hp2⟩
    · exact ⟨s3, q3, hg3, hp3⟩
    · exact ⟨s4, q4, hg4, hp4⟩
    · exact ⟨s5, q5, hg5, hp5⟩

/-- When the transform parser fails, the error is of the
`MalformedTransformArtifact` class. -/
theorem readTransform_error (lines : List String) (e : PyError)
    (h : readTransform lines = Except.error e) : MalformedTransformArtifact e := by
  cases h0 : readCoeff lines 0 with
  | error e0 =>
      simp [readTransform, h0] at h
      subst h
      exact readCoeff_error lines 0 _ h0
  | ok q0 =>
  cases h1 : readCoeff lines 1 with
  | error e1 =>
      simp [readTransform, h0, h1] at h
      subst h
      exact readCoeff_error lines 1 _ h1
  | ok q1 =>
  cases h2 : readCoeff lines 2 with
  | error e2 =>
      simp [readTransform, h0, h1, h2] at h
      subst h
      exact readCoeff_error lines 2 _ h2
  | ok q2 =>
  cases h3 : readCoeff lines 3 with
  | error e3 =>
      simp [readTransform, h0, h1, h2, h3] at h
      subst h
      exact readCoeff_error lines 3 _ h3
  | ok q3 =>
  cases h4 : readCoeff lines 4 with
  | error e4 =>
      simp [readTransform, h0, h1, h2, h3, h4] at h
      subst h
      exact readCoeff_error lines 4 _ h4
  | ok q4 =>
  cases h5 : readCoeff lines 5 with
  | error e5 =>
      simp [readTransform, h0, h1, h2, h3, h4, h5] at h
      subst h
      exact readCoeff_error lines 5 _ h5
  | ok q5 => simp [readTransform, h0, h1, h2, h3, h4, h5] at h

/-- C3: a world file with fewer than six lines, or whose first six lines
are not all parseable floats, makes `get_lat_lon_from_pixel` fail with a
`MalformedTransformArtifact` error (an `IndexError` or a `ValueError`). -/
theorem spec_c3 (lines : List String) (px py : ℚ)
    (hbad : lines.length < 6 ∨
      ∃ i, i < 6 ∧ ∃ s, lines[i]? = some s ∧ parseFloat s = none) :
    ∃ e, get_lat_lon_from_pixel lines px py = Except.error e ∧
      MalformedTransformArtifact e := by
  cases hr : readTransform lines with
  | ok t =>
      exfalso
      obtain ⟨hlen, hall⟩ := readTransform_ok lines t hr
      rcases hbad with hlt | ⟨i, hi, s, hgs, hps⟩
      · omega
      · obtain ⟨s2, q, hg2, hp2⟩ := hall i hi
        rw [hgs] at hg2
        cases hg2
        rw [hps] at hp2
        cases hp2
  | error e =>
      exact ⟨e, by simp [get_lat_lon_from_pixel, hr], readTransform_error lines e hr⟩

/-- Witness for C3: an artifact with only the 3 lines `1.0`, `2.0`, `3.0`
triggers the malformed-artifact failure. -/
theorem spec_c3_witness :
    ((["1.0", "2.0", "3.0"] : List String).length < 6 ∨
      ∃ i, i < 6 ∧ ∃ s, (["1.0", "2.0", "3.0"] : List String)[i]? = some s ∧
        parseFloat s = none) ∧
    ∃ e, get_lat_lon_from_pixel ["1.0", "2.0", "3.0"] 0 0 = Except.error e ∧
      MalformedTransformArtifact e :=
  ⟨Or.inl (by decide), spec_c3 ["1.0", "2.0", "3.0"] 0 0 (Or.inl (by decide))⟩

/-- A loop in which every iteration succeeds collects exactly the mapped
list. -/
theorem mapLoop_ok {α β : Type} (f : α → Except PyError β) (g : α → β)
    (l : List α) (h : ∀ a ∈ l, f a = Except.ok (g a)) :
    mapLoop f l = Except.ok (l.map g) := by
  induction l with
  | nil => rfl
  | cons a l ih =>
      simp [mapLoop, h a (List.mem_cons_self a l),
        ih (fun b hb => h b (List.mem_cons_of_mem a hb))]

/-- With a well-formed world file, each center maps to its affine image. -/
theorem map_center_ok (tfwLines : List String) (t : Transform) (c : Center)
    (ht : readTransform tfwLines = Except.ok t) :
    map_center tfwLines c = Except.ok (geoOf t c) := by
  simp [map_center, get_lat_lon_from_pixel, ht, geoOf]

/-- C4: when the center resolution of `populate_gis_from_dict` succeeds,
its result is either exactly the record's (nonempty) explicit center list,
or — when explicit centers are absent or empty — exactly the midpoints of
the record's bounding boxes; and those resolved centers are exactly the
ones fed to the Coordinate Mapper. -/
theorem spec_c4 (preds : PredsDict) (cs : List Center)
    (h : resolve_centers preds = Except.ok cs) :
    ((∃ l, preds.center = some l ∧ l ≠ [] ∧ cs = l) ∨
      ((preds.center = none ∨ preds.center = some []) ∧
        ∃ bs, preds.bboxes = some bs ∧ cs = bs.map get_center_bbox)) ∧
    ∀ tfwLines, populate_gis_from_dict preds tfwLines =
      mapLoop (map_center tfwLines) cs := by
  constructor
  · cases hc : preds.center with
    | none =>
        cases hb : preds.bboxes with
        | none => simp [resolve_centers, hc, hb] at h
        | some bs =>
            right
            refine ⟨Or.inl rfl, bs, rfl, ?_⟩
            simp [resolve_centers, hc, hb] at h
            exact h.symm
    | some l =>
        cases l with
        | nil =>
            cases hb : preds.bboxes with
            | none => simp [resolve_centers, hc, hb] at h
            | some bs =>
                right
                refine ⟨Or.inr rfl, bs, rfl, ?_⟩
                simp [resolve_centers, hc, hb] at h
                exact h.symm
        | cons c l =>
            left
            refine ⟨c :: l, rfl, by simp, ?_⟩
            simp [resolve_centers, hc] at h
            exact h.symm
  · intro tfwLines
    simp [populate_gis_from_dict, h]

/-- Witness for C4: a record with the single explicit center `(1, 2)`
resolves to exactly that center. -/
theorem spec_c4_witness :
    resolve_centers ⟨some [⟨1, 2⟩], none⟩ = Except.ok [⟨1, 2⟩] ∧
    (((∃ l, (⟨some [⟨1, 2⟩], none⟩ : PredsDict).center = some l ∧ l ≠ [] ∧
        [(⟨1, 2⟩ : Center)] = l) ∨
      (((⟨some [⟨1, 2⟩], none⟩ : PredsDict).center = none ∨
          (⟨some [⟨1, 2⟩], none⟩ : PredsDict).center = some []) ∧
        ∃ bs, (⟨some [⟨1, 2⟩], none⟩ : PredsDict).bboxes = some bs ∧
          [(⟨1, 2⟩ : Center)] = bs.map get_center_bbox)) ∧
    ∀ tfwLines, populate_gis_from_dict ⟨some [⟨1, 2⟩], none⟩ tfwLines =
      mapLoop (map_center tfwLines) [⟨1, 2⟩]) :=
  ⟨rfl, spec_c4 ⟨some [⟨1, 2⟩], none⟩ [⟨1, 2⟩] rfl⟩

/-- C5 counterexample: a record with neither a `"center"` nor a `"bboxes"`
key makes `populate_gis_from_dict` raise `KeyError` instead of returning an
empty list. -/
theorem spec_c5_counterexample :
    populate_gis_from_dict ⟨none, none⟩ [] = Except.error PyError.keyError := rfl

/-- C5 (amended): a record with no center data gives an empty result in
`process_json_and_calculate_coordinates`, and in `populate_gis_from_dict`
provided the record still carries a (possibly empty) `"bboxes"` list —
without that key `populate_gis_from_dict` raises `KeyError`. -/
theorem spec_c5_amended :
    (∀ (data : JObj) (tfwLines : List String),
        getItem data "center" = none →
        process_json_and_calculate_coordinates data tfwLines = Except.ok []) ∧
    (∀ (preds : PredsDict) (tfwLines : List String),
        (preds.center = none ∨ preds.center = some []) →
        preds.bboxes = some [] →
        populate_gis_from_dict preds tfwLines = Except.ok []) := by
  constructor
  · intro data tfwLines h
    simp [process_json_and_calculate_coordinates, h, jFalsy]
  · intro preds tfwLines hc hb
    rcases hc with hc | hc <;>
      simp [populate_gis_from_dict, resolve_centers, hc, hb, mapLoop]

/-- Witness for C5 (amended): the record `{"labels": []}` yields `[]` in
`process_json_and_calculate_coordinates`, and the record with empty
bounding-box list yields `[]` in `populate_gis_from_dict`. -/
theorem spec_c5_witness :
    getItem [("labels", JValue.arr [])] "center" = none ∧
    process_json_and_calculate_coordinates [("labels", JValue.arr [])] [] =
      Except.ok [] ∧
    ((⟨none, some []⟩ : PredsDict).center = none ∨
      (⟨none, some []⟩ : PredsDict).center = some []) ∧
    populate_gis_from_dict ⟨none, some []⟩ [] = Except.ok [] :=
  ⟨rfl, spec_c5_amended.1 [("labels", JValue.arr [])] [] rfl, Or.inl rfl,
    spec_c5_amended.2 ⟨none, some []⟩ [] (Or.inl rfl) rfl⟩

/-- C9: the bounding-box fallback fires whenever the explicit center list
is empty, not only when the key is absent — `center = []` with bounding
boxes present yields the mapped bounding-box midpoints — while
`process_json_and_calculate_coordinates` treats an empty `"center"` list
exactly like a missing key and returns `[]`. -/
theorem spec_c9 :
    (∀ (preds : PredsDict) (bs : List (ℚ × ℚ × ℚ × ℚ)) (tfwLines : List String)
        (t : Transform),
        preds.center = some [] → preds.bboxes = some bs →
        readTransform tfwLines = Except.ok t →
        populate_gis_from_dict preds tfwLines =
          Except.ok ((bs.map get_center_bbox).map (geoOf t))) ∧
    (∀ (data : JObj) (tfwLines : List String),
        getItem data "center" = some (JValue.arr []) →
        process_json_and_calculate_coordinates data tfwLines = Except.ok []) ∧
    (∀ (data : JObj) (tfwLines : List String),
        getItem data "center" = none →
        process_json_and_calculate_coordinates data tfwLines = Except.ok []) := by
  refine ⟨?_, ?_, ?_⟩
  · intro preds bs tfwLines t hc hb ht
    have hres : resolve_centers preds = Except.ok (bs.map get_center_bbox) := by
      simp [resolve_centers, hc, hb]
    have hm : mapLoop (map_center tfwLines) (bs.map get_center_bbox) =
        Except.ok ((bs.map get_center_bbox).map (geoOf t)) :=
      mapLoop_ok _ _ _ (fun c _ => map_center_ok tfwLines t c ht)
    simp [populate_gis_from_dict, hres, hm]
  · intro data tfwLines h
    simp [process_json_and_calculate_coordinates, h, jFalsy]
  · intro data tfwLines h
    simp [process_json_and_calculate_coordinates, h, jFalsy]

/-- Witness for C9: `center = []` with the single bounding box
`(0, 0, 2, 2)` and the identity world file yields the geo point `(1, 1)`;
a record artifact with `"center": []` yields `[]`. -/
theorem spec_c9_witness :
    (⟨some [], some [(0, 0, 2, 2)]⟩ : PredsDict).center = some [] ∧
    (⟨some [], some [(0, 0, 2, 2)]⟩ : PredsDict).bboxes = some [(0, 0, 2, 2)] ∧
    readTransform ["1", "0", "0", "1", "0", "0"] =
      Except.ok ⟨1, 0, 0, 1, 0, 0⟩ ∧
    populate_gis_from_dict ⟨some [], some [(0, 0, 2, 2)]⟩
        ["1", "0", "0", "1", "0", "0"] =
      Except.ok (([(0, 0, 2, 2)].map get_center_bbox).map
        (geoOf ⟨1, 0, 0, 1, 0, 0⟩)) ∧
    getItem [("center", JValue.arr [])] "center" = some (JValue.arr []) ∧
    process_json_and_calculate_coordinates [("center", JValue.arr [])] [] =
      Except.ok [] := by
  have ht : readTransform ["1", "0", "0", "1", "0", "0"] =
      Except.ok ⟨1, 0, 0, 1, 0, 0⟩ := by with_unfolding_all rfl
  exact ⟨rfl, rfl, ht, spec_c9.1 _ [(0, 0, 2, 2)] _ _ rfl rfl ht, rfl,
    spec_c9.2.1 [("center", JValue.arr [])] [] rfl⟩

/-- C10: for a record whose centers resolve to `c_1, ..., c_n` and a
well-formed world file, `populate_gis_from_dict` returns exactly the
index-aligned list whose `i`-th element is the Coordinate Mapper applied to
`c_i`. -/
theorem spec_c10 (preds : PredsDict) (tfwLines : List String) (t : Transform)
    (cs : List Center)
    (ht : readTransform tfwLines = Except.ok t)
    (hc : resolve_centers preds = Except.ok cs) :
    populate_gis_from_dict preds tfwLines = Except.ok (cs.map (geoOf t)) ∧
    (cs.map (geoOf t)).length = cs.length ∧
    ∀ (i : Nat) (h1 : i < (cs.map (geoOf t)).length) (h2 : i < cs.length),
      (cs.map (geoOf t)).get ⟨i, h1⟩ = geoOf t (cs.get ⟨i, h2⟩) := by
  have hm : mapLoop (map_center tfwLines) cs = Except.ok (cs.map (geoOf t)) :=
    mapLoop_ok _ _ cs (fun c _ => map_center_ok tfwLines t c ht)
  refine ⟨by simp [populate_gis_from_dict, hc, hm], List.length_map cs _, ?_⟩
  intro i h1 h2
  simp [List.getElem_map]

/-- Witness for C10: one explicit center `(3, 4)` through the identity
world file yields the single geo point `(3, 4)`. -/
theorem spec_c10_witness :
    readTransform ["1", "0", "0", "1", "0", "0"] =
      Except.ok ⟨1, 0, 0, 1, 0, 0⟩ ∧
    resolve_centers ⟨some [⟨3, 4⟩], none⟩ = Except.ok [⟨3, 4⟩] ∧
    populate_gis_from_dict ⟨some [⟨3, 4⟩], none⟩ ["1", "0", "0", "1", "0", "0"] =
      Except.ok ([(⟨3, 4⟩ : Center)].map (geoOf ⟨1, 0, 0, 1, 0, 0⟩)) ∧
    ([(⟨3, 4⟩ : Center)].map (geoOf ⟨1, 0, 0, 1, 0, 0⟩)).length =
      [(⟨3, 4⟩ : Center)].length ∧
    ∀ (i : Nat) (h1 : i < ([(⟨3, 4⟩ : Center)].map (geoOf ⟨1, 0, 0, 1, 0, 0⟩)).length)
      (h2 : i < [(⟨3, 4⟩ : Center)].length),
      ([(⟨3, 4⟩ : Center)].map (geoOf ⟨1, 0, 0, 1, 0, 0⟩)).get ⟨i, h1⟩ =
        geoOf ⟨1, 0, 0, 1, 0, 0⟩ ([(⟨3, 4⟩ : Center)].get ⟨i, h2⟩) := by
  have ht : readTransform ["1", "0", "0", "1", "0", "0"] =
      Except.ok ⟨1, 0, 0, 1, 0, 0⟩ := by with_unfolding_all rfl
  have h := spec_c10 ⟨some [⟨3, 4⟩], none⟩ ["1", "0", "0", "1", "0", "0"]
    ⟨1, 0, 0, 1, 0, 0⟩ [⟨3, 4⟩] ht rfl
  exact ⟨ht, rfl, h.1, h.2.1, h.2.2⟩

/-- Setting one key leaves every other key's binding unchanged. -/
theorem getItem_dictSet_ne (d : JObj) (k k2 : String) (v : JValue) (h : k2 ≠ k) :
    getItem (dictSet d k v) k2 = getItem d k2 := by
  induction d with
  | nil => simp [dictSet, getItem, Ne.symm h]
  | cons p rest ih =>
      obtain ⟨k3, w⟩ := p
      by_cases hk : k3 = k
      · subst hk
        simp [dictSet, getItem, Ne.symm h]
      · by_cases h32 : k3 = k2 <;> simp [dictSet, getItem, hk, h32, h, ih]

/-- Setting a fresh key binds it to the new value. -/
theorem getItem_dictSet_self (d : JObj) (k : String) (v : JValue)
    (h : getItem d k = none) : getItem (dictSet d k v) k = some v := by
  induction d with
  | nil => simp [dictSet, getItem]
  | cons p rest ih =>
      obtain ⟨k3, w⟩ := p
      by_cases hk : k3 = k
      · subst hk
        simp [getItem] at h
      · simp [getItem, hk] at h
        simp [dictSet, getItem, hk, ih h]

/-- Setting a fresh key appends it after the existing keys, in order. -/
theorem keys_dictSet_new (d : JObj) (k : String) (v : JValue)
    (h : getItem d k = none) :
    (dictSet d k v).map Prod.fst = d.map Prod.fst ++ [k] := by
  induction d with
  | nil => simp [dictSet]
  | cons p rest ih =>
      obtain ⟨k3, w⟩ := p
      by_cases hk : k3 = k
      · subst hk
        simp [getItem] at h
      · simp [getItem, hk] at h
        simp [dictSet, hk, ih h]

/-- C6 counterexample: a record that already carries a `"gis"` field does
not keep it unchanged — `save_results_with_gis_to_json` overwrites it, and
adds no new field. -/
theorem spec_c6_counterexample :
    getItem [("gis", JValue.num 0)] "gis" = some (JValue.num 0) ∧
    save_results_with_gis_to_json [("gis", JValue.num 0)] [] =
      [("gis", JValue.arr [])] ∧
    JValue.num 0 ≠ JValue.arr [] :=
  ⟨rfl, rfl, fun h => JValue.noConfusion h⟩

/-- C6 (amended): provided the record does not already carry a `"gis"`
field, the output of `save_results_with_gis_to_json` keeps every original
field bound to its original value, binds the single new field `"gis"` to
the derived list of latitude/longitude objects, and appends exactly that
one key after the original keys. -/
theorem spec_c6_amended (data : JObj) (results : List CoordResult)
    (h : getItem data "gis" = none) :
    (∀ k, k ≠ "gis" →
        getItem (save_results_with_gis_to_json data results) k = getItem data k) ∧
    getItem (save_results_with_gis_to_json data results) "gis" =
      some (gisValue results) ∧
    (save_results_with_gis_to_json data results).map Prod.fst =
      data.map Prod.fst ++ ["gis"] :=
  ⟨fun k hk => getItem_dictSet_ne data "gis" k (gisValue results) hk,
   getItem_dictSet_self data "gis" (gisValue results) h,
   keys_dictSet_new data "gis" (gisValue results) h⟩

/-- Witness for C6 (amended): a record with a `"labels"` field keeps it,
and gains exactly the `"gis"` field. -/
theorem spec_c6_witness :
    getItem [("labels", JValue.arr [])] "gis" = none ∧
    ((∀ k, k ≠ "gis" →
        getItem (save_results_with_gis_to_json [("labels", JValue.arr [])] []) k =
          getItem [("labels", JValue.arr [])] k) ∧
      getItem (save_results_with_gis_to_json [("labels", JValue.arr [])] []) "gis" =
        some (gisValue []) ∧
      (save_results_with_gis_to_json [("labels", JValue.arr [])] []).map Prod.fst =
        [("labels", JValue.arr [])].map Prod.fst ++ ["gis"]) :=
  ⟨rfl, spec_c6_amended [("labels", JValue.arr [])] [] rfl⟩

/-- Characterization of a batch run (with `print_results = false`) in which
every matched record processes without an exception: the run succeeds, the
output names are exactly the matched `.json` names in order, and the
missing-world-file log entries are exactly the unmatched `.json` names. -/
theorem populate_gis_go_ok (inputDir : List (String × List String))
    (l : List (String × JObj))
    (hok : ∀ fn data tfwLines, (fn, data) ∈ l → jsonMatch fn = true →
        lookupFile inputDir (strReplace fn ".json" ".tfw") = some tfwLines →
        isOkE (process_json_and_calculate_coordinates data tfwLines) = true) :
    ∃ outs logs, populate_gis_go inputDir false l = Except.ok (outs, logs) ∧
      outs.map Prod.fst = (l.filter (fun p => jsonMatch p.1 &&
        (lookupFile inputDir (strReplace p.1 ".json" ".tfw")).isSome)).map Prod.fst ∧
      ∀ fn, LogEntry.missingTfw fn ∈ logs ↔
        fn ∈ (l.filter (fun p => jsonMatch p.1 &&
          (lookupFile inputDir (strReplace p.1 ".json" ".tfw")).isNone)).map Prod.fst := by
  induction l with
  | nil => exact ⟨[], [], rfl, rfl, by simp⟩
  | cons p rest ih =>
      obtain ⟨fn, data⟩ := p
      obtain ⟨outs, logs, hgo, houts, hlogs⟩ :=
        ih (fun g d t hm => hok g d t (List.mem_cons_of_mem _ hm))
      by_cases hj : jsonMatch fn = true
      · cases hlk : lookupFile inputDir (strReplace fn ".json" ".tfw") with
        | none =>
            refine ⟨outs, LogEntry.missingTfw fn :: logs, ?_, ?_, ?_⟩
            · simp [populate_gis_go, hj, hlk, hgo]
            · simpa [List.filter_cons, hj, hlk] using houts
            · intro g
              simp [List.filter_cons, hj, hlk, hlogs g]
        | some tfwLines =>
            have hpro := hok fn data tfwLines (List.mem_cons_self _ _) hj hlk
            cases hp : process_json_and_calculate_coordinates data tfwLines with
            | error e =>
                rw [hp] at hpro
                simp [isOkE] at hpro
            | ok r =>
                refine ⟨(fn, save_results_with_gis_to_json data r) :: outs,
                  LogEntry.savedJson fn :: logs, ?_, ?_, ?_⟩
                · simp [populate_gis_go, hj, hlk, hp, hgo]
                · simp [List.filter_cons, hj, hlk, houts]
                · intro g
                  simp [List.filter_cons, hj, hlk, hlogs g]
      · refine ⟨outs, logs, ?_, ?_, ?_⟩
        · simp [populate_gis_go, hj, hgo]
        · simp [List.filter_cons, hj, houts]
        · intro g
          simp [List.filter_cons, hj, hlogs g]

/-- C8 (amended): in a batch run (not printing) in which every record whose
matching world file is listed processes without an exception, the run does
not abort; every `.json` record with no matching world file is logged as
missing and produces no output artifact, and every `.json` record with a
matching world file produces its output artifact. -/
theorem spec_c8_amended (env : BatchEnv)
    (hprint : env.print_results = false)
    (hok : ∀ fn data tfwLines, (fn, data) ∈ env.jsonDir → jsonMatch fn = true →
        lookupFile env.inputDir (strReplace fn ".json" ".tfw") = some tfwLines →
        isOkE (process_json_and_calculate_coordinates data tfwLines) = true) :
    ∃ outs logs, populate_gis env = Except.ok (outs, logs) ∧
      (∀ fn data, (fn, data) ∈ env.jsonDir → jsonMatch fn = true →
          lookupFile env.inputDir (strReplace fn ".json" ".tfw") = none →
          LogEntry.missingTfw fn ∈ logs ∧ fn ∉ outs.map Prod.fst) ∧
      (∀ fn data, (fn, data) ∈ env.jsonDir → jsonMatch fn = true →
          (lookupFile env.inputDir (strReplace fn ".json" ".tfw")).isSome = true →
          fn ∈ outs.map Prod.fst) := by
  obtain ⟨outs, logs, hgo, houts, hlogs⟩ :=
    populate_gis_go_ok env.inputDir env.jsonDir hok
  refine ⟨outs, logs, ?_, ?_, ?_⟩
  · rw [populate_gis, hprint]
    exact hgo
  · intro fn data hmem hj hlk
    constructor
    · exact (hlogs fn).mpr (List.mem_map.mpr
        ⟨(fn, data), List.mem_filter.mpr ⟨hmem, by simp [hj, hlk]⟩, rfl⟩)
    · rw [houts]
      intro hfn
      obtain ⟨q, hqmem, hqfst⟩ := List.mem_map.mp hfn
      obtain ⟨hqin, hcond⟩ := List.mem_filter.mp hqmem
      rw [hqfst, hlk] at hcond
      simp at hcond
  · intro fn data hmem hj hsome
    rw [houts]
    exact List.mem_map.mpr
      ⟨(fn, data), List.mem_filter.mpr ⟨hmem, by simp [hj, hsome]⟩, rfl⟩

/-- C8 counterexample: in the batch `envEx`, the record `b.json` is paired
with a malformed world file, the whole run aborts with the propagated
`ValueError`, and `c.json` — although paired with a well-formed world
file — produces no output artifact. -/
theorem spec_c8_counterexample :
    jsonMatch "c.json" = true ∧
    lookupFile envEx.inputDir (strReplace "c.json" ".json" ".tfw") =
      some goodTfwLines ∧
    populate_gis envEx = Except.error PyError.valueError :=
  ⟨rfl, rfl, rfl⟩

/-- Witness for C8 (amended): in the batch `envW`, `a.json` has no world
file and is skipped with a log while `b.json` produces its output. -/
theorem spec_c8_witness :
    envW.print_results = false ∧
    ∃ outs logs, populate_gis envW = Except.ok (outs, logs) ∧
      (∀ fn data, (fn, data) ∈ envW.jsonDir → jsonMatch fn = true →
          lookupFile envW.inputDir (strReplace fn ".json" ".tfw") = none →
          LogEntry.missingTfw fn ∈ logs ∧ fn ∉ outs.map Prod.fst) ∧
      (∀ fn data, (fn, data) ∈ envW.jsonDir → jsonMatch fn = true →
          (lookupFile envW.inputDir (strReplace fn ".json" ".tfw")).isSome = true →
          fn ∈ outs.map Prod.fst) := by
  have hok : ∀ fn data tfwLines, (fn, data) ∈ envW.jsonDir → jsonMatch fn = true →
      lookupFile envW.inputDir (strReplace fn ".json" ".tfw") = some tfwLines →
      isOkE (process_json_and_calculate_coordinates data tfwLines) = true := by
    intro fn data tfwLines hmem hj hlk
    simp only [envW, List.mem_cons, List.not_mem_nil, or_false, Prod.mk.injEq] at hmem
    rcases hmem with ⟨rfl, rfl⟩ | ⟨rfl, rfl⟩
    · rw [show lookupFile envW.inputDir (strReplace "a.json" ".json" ".tfw") = none
        from rfl] at hlk
      cases hlk
    · rw [show lookupFile envW.inputDir (strReplace "b.json" ".json" ".tfw") =
        some goodTfwLines from rfl] at hlk
      cases hlk
      rfl
  exact ⟨rfl, spec_c8_amended envW rfl hok⟩
